import Mathlib

/-!
Verification development for the OBS WebSocket client engine
(`src/obs_handler.c` of the CustomStreamEnemble repository).

Bytes are modelled as natural numbers (values < 256 in the C code);
byte sequences as `List Nat`.  The network transport is modelled as the
byte sequence exchanged, allocation is modelled as always succeeding,
and randomness (mask keys, UUIDs) and clock readings are passed in as
explicit parameters.
-/

namespace ObsWS

/-! ### Frame codec (`obs_send_frame` / `obs_read_frame`) -/

/-- The masking loop shared by `obs_send_frame` and `obs_read_frame`:
`out[i] = in[i] ^ mask_key[i % 4]`, with `i` the running byte index. -/
def maskBytes (maskKey : List Nat) : Nat → List Nat → List Nat
  | _, [] => []
  | i, b :: bs => (b ^^^ maskKey.getD (i % 4) 0) :: maskBytes maskKey (i + 1) bs

/-- Model of `obs_send_frame` (obs_handler.c lines 679-738): the byte
sequence written to the socket for payload `payload`, mask key
`maskKey` (the four random bytes the C code generates) and WebSocket
opcode `opcode`.  The header is 2 bytes for payloads under 126 bytes,
4 bytes (16-bit big-endian extension) under 65536, and 10 bytes
(64-bit big-endian extension) otherwise; the mask key follows the
header and the payload is XOR-masked. -/
def obs_send_frame (payload : List Nat) (maskKey : List Nat) (opcode : Nat) : List Nat :=
  let len := payload.length
  let b0 := 0x80 ||| (opcode &&& 0x0F)
  let header :=
    if len < 126 then
      [b0, 0x80 ||| (len &&& 0x7F)]
    else if len < 65536 then
      [b0, 0x80 ||| 126, (len >>> 8) &&& 0xFF, len &&& 0xFF]
    else
      [b0, 0x80 ||| 127] ++ (List.range 8).map (fun i => (len >>> (8 * (7 - i))) &&& 0xFF)
  header ++ maskKey ++ maskBytes maskKey 0 payload

/-- Model of `obs_read_frame` (obs_handler.c lines 740-804), reading one
frame from the byte sequence `bytes`.  Returns `none` where the C code
returns `-1` (short reads), otherwise `some (ret, payload, opcode)`
where `ret` is the C return value (`0` final frame, `1` fragment). -/
def obs_read_frame (bytes : List Nat) : Option (Nat × List Nat × Nat) :=
  match bytes with
  | b0 :: b1 :: rest =>
    let fin := (b0 >>> 7) &&& 1
    let opcode := b0 &&& 0x0F
    let masked := (b1 >>> 7) &&& 1
    let pl := b1 &&& 0x7F
    let step1 : Option (Nat × List Nat) :=
      if pl = 126 then
        match rest with
        | l0 :: l1 :: rest2 => some ((l0 <<< 8) ||| l1, rest2)
        | _ => none
      else if pl = 127 then
        match rest with
        | a :: b :: c :: d :: e :: f :: g :: h :: rest2 =>
            some (List.foldl (fun acc x => (acc <<< 8) ||| x) 0 [a, b, c, d, e, f, g, h], rest2)
        | _ => none
      else some (pl, rest)
    match step1 with
    | none => none
    | some (plen, rest2) =>
      let step2 : Option (List Nat × List Nat) :=
        if masked = 1 then
          match rest2 with
          | m0 :: m1 :: m2 :: m3 :: rest3 => some ([m0, m1, m2, m3], rest3)
          | _ => none
        else some ([0, 0, 0, 0], rest2)
      match step2 with
      | none => none
      | some (mkey, rest3) =>
        if plen ≤ rest3.length then
          let raw := rest3.take plen
          let payload := if masked = 1 then maskBytes mkey 0 raw else raw
          some (if fin = 1 then 0 else 1, payload, opcode)
        else none
  | _ => none

theorem maskBytes_length (mk : List Nat) : ∀ (i : Nat) (l : List Nat),
    (maskBytes mk i l).length = l.length := by
  intro i l
  induction l generalizing i with
  | nil => rfl
  | cons b bs ih => simp [maskBytes, ih]

theorem maskBytes_maskBytes (mk : List Nat) : ∀ (i : Nat) (l : List Nat),
    maskBytes mk i (maskBytes mk i l) = l := by
  intro i l
  induction l generalizing i with
  | nil => rfl
  | cons b bs ih =>
    simp only [maskBytes, ih]
    rw [Nat.xor_assoc, Nat.xor_self, Nat.xor_zero]

/-! ### Authenticator (`obs_authenticate`)

The C code calls OpenSSL's SHA-256 and a BIO-based base64 encoder; the
spec treats both as external primitives with their well-known
contracts, so they are modelled here from those contracts (FIPS 180-4
SHA-256, RFC 4648 base64 with padding and no newlines). -/

/-- Modelled from the spec: 32-bit right rotation used by SHA-256
(the C code delegates hashing to OpenSSL `SHA256_*`). -/
def rotr32 (x n : Nat) : Nat := ((x >>> n) ||| (x <<< (32 - n))) &&& 0xFFFFFFFF

/-- Modelled from the spec: the SHA-256 round constants (FIPS 180-4
section 4.2.2, written in decimal). -/
def sha256K : List Nat :=
  [1116352408, 1899447441, 3049323471, 3921009573, 961987163, 1508970993,
   2453635748, 2870763221, 3624381080, 310598401, 607225278, 1426881987,
   1925078388, 2162078206, 2614888103, 3248222580, 3835390401, 4022224774,
   264347078, 604807628, 770255983, 1249150122, 1555081692, 1996064986,
   2554220882, 2821834349, 2952996808, 3210313671, 3336571891, 3584528711,
   113926993, 338241895, 666307205, 773529912, 1294757372, 1396182291,
   1695183700, 1986661051, 2177026350, 2456956037, 2730485921, 2820302411,
   3259730800, 3345764771, 3516065817, 3600352804, 4094571909, 275423344,
   430227734, 506948616, 659060556, 883997877, 958139571, 1322822218,
   1537002063, 1747873779, 1955562222, 2024104815, 2227730452, 2361852424,
   2428436474, 2756734187, 3204031479, 3329325298]

/-- Modelled from the spec: the SHA-256 initial hash value (FIPS 180-4
section 5.3.3, written in decimal). -/
def sha256H0 : List Nat :=
  [1779033703, 3144134277, 1013904242, 2773480762,
   1359893119, 2600822924, 528734635, 1541459225]

/-- Big-endian 8-byte encoding of a natural number. -/
def be64Bytes (n : Nat) : List Nat := (List.range 8).map (fun i => n / 256 ^ (7 - i) % 256)

/-- Modelled from the spec: SHA-256 message padding (append 0x80, zero
bytes to 56 mod 64, then the bit length as 8 big-endian bytes). -/
def sha256Pad (msg : List Nat) : List Nat :=
  let len := msg.length
  let padLen := (64 - (len + 9) % 64) % 64
  msg ++ [0x80] ++ List.replicate padLen 0 ++ be64Bytes (8 * len)

/-- Split a byte list into 64-byte blocks (structural recursion on a
fuel counter so that the definition reduces in the kernel). -/
def toBlocksAux : Nat → List Nat → List (List Nat)
  | 0, _ => []
  | _ + 1, [] => []
  | fuel + 1, l => l.take 64 :: toBlocksAux fuel (l.drop 64)

/-- Split a byte list into 64-byte blocks. -/
def toBlocks (l : List Nat) : List (List Nat) := toBlocksAux l.length l

/-- Assemble the sixteen 32-bit big-endian message words of one block. -/
def wordsOfBlock (block : List Nat) : List Nat :=
  (List.range 16).map (fun i =>
    (block.getD (4 * i) 0 <<< 24) ||| (block.getD (4 * i + 1) 0 <<< 16) |||
      (block.getD (4 * i + 2) 0 <<< 8) ||| block.getD (4 * i + 3) 0)

/-- Modelled from the spec: SHA-256 small sigma 0. -/
def smallSigma0 (x : Nat) : Nat := rotr32 x 7 ^^^ rotr32 x 18 ^^^ (x >>> 3)

/-- Modelled from the spec: SHA-256 small sigma 1. -/
def smallSigma1 (x : Nat) : Nat := rotr32 x 17 ^^^ rotr32 x 19 ^^^ (x >>> 10)

/-- Modelled from the spec: extend the 16 message words to 64 by
appending `n` further schedule words. -/
def extendW : Nat → List Nat → List Nat
  | 0, ws => ws
  | n + 1, ws =>
      let t := ws.length
      let w := (smallSigma1 (ws.getD (t - 2) 0) + ws.getD (t - 7) 0 +
                smallSigma0 (ws.getD (t - 15) 0) + ws.getD (t - 16) 0) % 4294967296
      extendW n (ws ++ [w])

/-- Modelled from the spec: SHA-256 big sigma 0. -/
def bigSigma0 (x : Nat) : Nat := rotr32 x 2 ^^^ rotr32 x 13 ^^^ rotr32 x 22

/-- Modelled from the spec: SHA-256 big sigma 1. -/
def bigSigma1 (x : Nat) : Nat := rotr32 x 6 ^^^ rotr32 x 11 ^^^ rotr32 x 25

/-- Modelled from the spec: SHA-256 choice function (complement taken
modulo 2^32). -/
def chFn (x y z : Nat) : Nat := (x &&& y) ^^^ ((x ^^^ 0xFFFFFFFF) &&& z)

/-- Modelled from the spec: SHA-256 majority function. -/
def majFn (x y z : Nat) : Nat := (x &&& y) ^^^ (x &&& z) ^^^ (y &&& z)

/-- Modelled from the spec: one SHA-256 compression round over the
eight-word working state. -/
def sha256Round (st : List Nat) (kw : Nat × Nat) : List Nat :=
  match st with
  | [a, b, c, d, e, f, g, h] =>
    let t1 := (h + bigSigma1 e + chFn e f g + kw.1 + kw.2) % 4294967296
    let t2 := (bigSigma0 a + majFn a b c) % 4294967296
    [(t1 + t2) % 4294967296, a, b, c, (d + t1) % 4294967296, e, f, g]
  | st => st

/-- Modelled from the spec: SHA-256 processing of one 64-byte block. -/
def sha256Block (hs : List Nat) (block : List Nat) : List Nat :=
  let ws := extendW 48 (wordsOfBlock block)
  let st := List.foldl sha256Round hs (List.zip sha256K ws)
  List.zipWith (fun x y => (x + y) % 4294967296) hs st

/-- Modelled from the spec: the SHA-256 digest (32 bytes) of a byte
sequence; stands in for OpenSSL's `SHA256_Init` / `SHA256_Update` /
`SHA256_Final` chain, under which updating with `a` then `b` hashes
the concatenation `a ++ b`. -/
def sha256 (msg : List Nat) : List Nat :=
  let final := List.foldl sha256Block sha256H0 (toBlocks (sha256Pad msg))
  (final.map (fun w => [w >>> 24 &&& 255, w >>> 16 &&& 255, w >>> 8 &&& 255, w &&& 255])).flatten

/-- The RFC 4648 base64 alphabet. -/
def b64Chars : List Char :=
  "ABCDEFGHIJKLMNOPQRSTUVWXYZabcdefghijklmnopqrstuvwxyz0123456789+/".toList

/-- Look up one base64 alphabet character. -/
def b64Char (n : Nat) : Char := b64Chars.getD n 'A'

/-- Base64-encode bytes three at a time, padding with `=`. -/
def base64Chunks : List Nat → List Char
  | [] => []
  | [a] => [b64Char (a >>> 2), b64Char ((a &&& 3) <<< 4), '=', '=']
  | [a, b] => [b64Char (a >>> 2), b64Char (((a &&& 3) <<< 4) ||| (b >>> 4)),
               b64Char ((b &&& 15) <<< 2), '=']
  | a :: b :: c :: rest =>
      [b64Char (a >>> 2), b64Char (((a &&& 3) <<< 4) ||| (b >>> 4)),
       b64Char (((b &&& 15) <<< 2) ||| (c >>> 6)), b64Char (c &&& 63)] ++ base64Chunks rest

/-- Modelled from the spec: `obs_base64_encode` (obs_handler.c lines
622-650), which the C code implements with OpenSSL BIOs in
`BIO_FLAGS_BASE64_NO_NL` mode, i.e. plain base64 with padding and no
line breaks. -/
def obs_base64_encode (bytes : List Nat) : String := String.mk (base64Chunks bytes)

/-- The bytes of an ASCII string as the C code sees them. -/
def strBytes (s : String) : List Nat := s.toList.map Char.toNat

/-- The authentication string computed by `obs_authenticate`
(obs_handler.c lines 943-997): `SHA256(password || salt)` is
base64-encoded, the challenge is appended, hashed again and
base64-encoded. -/
def obs_authenticate (password salt challenge : String) : String :=
  let secret_hash := sha256 (strBytes password ++ strBytes salt)
  let secret_b64 := obs_base64_encode secret_hash
  let auth_hash := sha256 (strBytes secret_b64 ++ strBytes challenge)
  obs_base64_encode auth_hash

/-! ### Data model (`obs_handler.h`) -/

/-- Connection states (`obs_connection_state_t`). -/
inductive obs_connection_state_t
  | uninitialized
  | disconnected
  | connecting
  | authenticating
  | connected
  | error
  | reconnecting
  | shutting_down
deriving DecidableEq, Repr

/-- Command types (`obs_command_type_t`). -/
inductive obs_command_type_t
  | switch_scene
  | get_current_scene
  | get_scene_list
  | set_source_visibility
  | ping
  | shutdown
deriving DecidableEq, Repr

/-- Command priorities (`obs_command_priority_t`), enum values 0-3. -/
inductive obs_command_priority_t
  | low
  | normal
  | high
  | critical
deriving DecidableEq, Repr

/-- The C enum value of a priority (the index into
`command_queue_head`). -/
def priorityNat : obs_command_priority_t → Nat
  | .low => 0
  | .normal => 1
  | .high => 2
  | .critical => 3

/-- Status flag bit values from `obs_status_flags_t`. -/
def OBS_FLAG_DAEMON_READY : Nat := 1
def OBS_FLAG_SOCKET_CONNECTED : Nat := 2
def OBS_FLAG_WEBSOCKET_READY : Nat := 4
def OBS_FLAG_AUTHENTICATED : Nat := 8
def OBS_FLAG_KEEPALIVE_OK : Nat := 16
def OBS_FLAG_SCENE_CACHE_VALID : Nat := 32
def OBS_FLAG_COMMAND_QUEUE_OK : Nat := 64
def OBS_FLAG_NETWORK_ERROR : Nat := 256
def OBS_FLAG_AUTH_ERROR : Nat := 512
def OBS_FLAG_PROTOCOL_ERROR : Nat := 1024
def OBS_FLAG_TIMEOUT_ERROR : Nat := 2048
def OBS_FLAG_QUEUE_FULL : Nat := 4096
def OBS_FLAG_MEMORY_ERROR : Nat := 8192
def OBS_FLAG_CONFIG_ERROR : Nat := 16384
def OBS_FLAG_SHUTDOWN_ERROR : Nat := 32768

/-- Configuration (`obs_config_t`). -/
structure obs_config_t where
  host : String
  port : Int
  password : String
  max_retries : Int
  retry_delay_ms : Int
  ping_interval_ms : Int
  ping_timeout_ms : Int
  command_timeout_ms : Int
  command_queue_size : Nat
  enable_scene_cache : Bool
  enable_keepalive : Bool
deriving DecidableEq, Repr

/-- Statistics counters (`obs_statistics_t`; the timestamp and
response-time fields are not needed by any claim and are omitted). -/
structure obs_statistics_t where
  messages_sent : Nat
  messages_received : Nat
  scene_switches : Nat
  reconnections : Nat
  ping_failures : Nat
  command_timeouts : Nat
  queue_overflows : Nat
deriving DecidableEq, Repr

/-- One queued command (`struct obs_command`). -/
structure obs_command_t where
  type : obs_command_type_t
  priority : obs_command_priority_t
  scene_name : String
  request_id : String
  created_time : Int
deriving DecidableEq, Repr

/-- The engine (`struct obs_websocket`).  Mutexes, condition variables
and callbacks are concurrency/extension points not modelled; the four
`command_queue_head` entries are the four queue fields.  `sent_log`
models the mock transport of the spec's testable properties: the
commands serialized and handed to `obs_send_frame` by the drain loop,
in order. -/
structure obs_websocket_t where
  state : obs_connection_state_t
  socket_fd : Int
  config : obs_config_t
  should_exit : Bool
  queue_low : List obs_command_t
  queue_normal : List obs_command_t
  queue_high : List obs_command_t
  queue_critical : List obs_command_t
  command_queue_count : Nat
  status_flags : Nat
  current_scene : String
  error_message : String
  stats : obs_statistics_t
  retry_count : Int
  auth_required : Bool
  challenge : String
  salt : String
  sent_log : List obs_command_t
deriving DecidableEq, Repr

/-- Read `command_queue_head[priority]`. -/
def getQueue (e : obs_websocket_t) : obs_command_priority_t → List obs_command_t
  | .low => e.queue_low
  | .normal => e.queue_normal
  | .high => e.queue_high
  | .critical => e.queue_critical

/-- Write `command_queue_head[priority]`. -/
def setQueue (e : obs_websocket_t) : obs_command_priority_t → List obs_command_t → obs_websocket_t
  | .low, l => { e with queue_low := l }
  | .normal, l => { e with queue_normal := l }
  | .high, l => { e with queue_high := l }
  | .critical, l => { e with queue_critical := l }

/-- Model of `obs_set_state` (callback invocation not modelled). -/
def obs_set_state (e : obs_websocket_t) (s : obs_connection_state_t) : obs_websocket_t :=
  { e with state := s }

/-- Model of `obs_set_error_flag`. -/
def obs_set_error_flag (e : obs_websocket_t) (flag : Nat) (message : String) : obs_websocket_t :=
  { e with status_flags := e.status_flags ||| flag, error_message := message }

/-- Model of `obs_clear_error_flag` (`flags &= ~flag` on a `uint32_t`). -/
def obs_clear_error_flag (e : obs_websocket_t) (flag : Nat) : obs_websocket_t :=
  { e with status_flags := e.status_flags &&& (0xFFFFFFFF ^^^ flag) }

/-! ### Public facade -/

/-- Model of `obs_websocket_default_config` (obs_handler.c lines
98-112). -/
def obs_websocket_default_config : obs_config_t :=
  { host := "localhost", port := 4455, password := "", max_retries := 5,
    retry_delay_ms := 5000, ping_interval_ms := 10000, ping_timeout_ms := 5000,
    command_timeout_ms := 2000, command_queue_size := 64,
    enable_scene_cache := true, enable_keepalive := true }

/-- Model of `obs_websocket_validate_config` (obs_handler.c lines
114-120); `none` models a NULL config pointer. -/
def obs_websocket_validate_config (config : Option obs_config_t) : Int :=
  match config with
  | none => -1
  | some c =>
    if c.host.length = 0 then -2
    else if c.port ≤ 0 ∨ 65535 < c.port then -3
    else if c.command_queue_size = 0 then -4
    else 0

/-- The engine produced by `obs_websocket_init` (obs_handler.c lines
129-178): `calloc` zero-fills every field, then the listed fields are
set and the state moved to `disconnected`. -/
def initialEngine (config : obs_config_t) : obs_websocket_t :=
  { state := .disconnected, socket_fd := -1, config := config, should_exit := false,
    queue_low := [], queue_normal := [], queue_high := [], queue_critical := [],
    command_queue_count := 0, status_flags := 0, current_scene := "", error_message := "",
    stats := { messages_sent := 0, messages_received := 0, scene_switches := 0,
               reconnections := 0, ping_failures := 0, command_timeouts := 0,
               queue_overflows := 0 },
    retry_count := 0, auth_required := false, challenge := "", salt := "", sent_log := [] }

/-- Model of `obs_websocket_init` (obs_handler.c lines 122-179):
returns the error code on a NULL or invalid config, the fresh engine
otherwise (allocation and mutex initialization are modelled as
succeeding). -/
def obs_websocket_init (config : Option obs_config_t) : Except Int obs_websocket_t :=
  match config with
  | none => .error (-1)
  | some c =>
    if obs_websocket_validate_config (some c) ≠ 0 then .error (-2)
    else .ok (initialEngine c)

/-- Model of `obs_websocket_switch_scene` (obs_handler.c lines
406-451) on a non-NULL engine and scene name.  `reqId` and `now` stand
for the generated UUID and `time(NULL)`; command allocation is
modelled as succeeding.  Returns the C return value and the updated
engine. -/
def obs_websocket_switch_scene (e : obs_websocket_t) (scene_name : String)
    (priority : obs_command_priority_t) (reqId : String) (now : Int) :
    Int × obs_websocket_t :=
  if e.config.enable_scene_cache && (e.current_scene == scene_name) then
    (0, e)
  else
    let cmd : obs_command_t :=
      { type := .switch_scene, priority := priority,
        scene_name := String.mk (scene_name.toList.take 255),
        request_id := reqId, created_time := now }
    if e.config.command_queue_size ≤ e.command_queue_count then
      (-3, obs_set_error_flag e OBS_FLAG_QUEUE_FULL "Command queue full")
    else
      (0, { setQueue e priority (cmd :: getQueue e priority) with
            command_queue_count := e.command_queue_count + 1 })

/-- The NULL-argument guard of `obs_websocket_switch_scene`
(obs_handler.c line 407). -/
def obs_websocket_switch_scene_checked (obs : Option obs_websocket_t)
    (scene_name : Option String) (priority : obs_command_priority_t)
    (reqId : String) (now : Int) : Int × Option obs_websocket_t :=
  match obs, scene_name with
  | some e, some n =>
    let r := obs_websocket_switch_scene e n priority reqId now
    (r.1, some r.2)
  | _, _ => (-1, obs)

/-- Model of `obs_websocket_get_current_scene` (obs_handler.c lines
474-482): NULL for a NULL engine or an empty cached scene. -/
def obs_websocket_get_current_scene : Option obs_websocket_t → Option String
  | none => none
  | some e => if e.current_scene = "" then none else some e.current_scene

/-! ### Command queue drain (`obs_process_command_queue`) -/

/-- The body run on a dequeued command (obs_handler.c lines 908-933):
a `SetCurrentProgramScene` request is serialized and sent for
switch-scene commands and the statistics are updated; other command
types are only freed.  Appending to `sent_log` models the
`obs_send_frame` call. -/
def sendSwitchSceneCmd (e : obs_websocket_t) (cmd : obs_command_t) : obs_websocket_t :=
  if cmd.type = .switch_scene then
    { e with
      sent_log := e.sent_log ++ [cmd],
      stats := { e.stats with
                 messages_sent := e.stats.messages_sent + 1,
                 scene_switches := e.stats.scene_switches + 1 } }
  else e

/-- Model of `obs_process_command_queue` (obs_handler.c lines
893-941): scan priorities from critical down to low, pop the head of
the first non-empty list, process it, and stop. -/
def obs_process_command_queue (e : obs_websocket_t) : obs_websocket_t :=
  match e.queue_critical with
  | cmd :: tl =>
    sendSwitchSceneCmd
      { e with queue_critical := tl, command_queue_count := e.command_queue_count - 1 } cmd
  | [] =>
    match e.queue_high with
    | cmd :: tl =>
      sendSwitchSceneCmd
        { e with queue_high := tl, command_queue_count := e.command_queue_count - 1 } cmd
    | [] =>
      match e.queue_normal with
      | cmd :: tl =>
        sendSwitchSceneCmd
          { e with queue_normal := tl, command_queue_count := e.command_queue_count - 1 } cmd
      | [] =>
        match e.queue_low with
        | cmd :: tl =>
          sendSwitchSceneCmd
            { e with queue_low := tl, command_queue_count := e.command_queue_count - 1 } cmd
        | [] => e

/-! ### Daemon state machine branches (`obs_daemon_thread`) -/

/-- Boolean list-prefix test (model of `strncmp`-style matching used
to implement the `strstr` check). -/
def startsWithList : List Char → List Char → Bool
  | [], _ => true
  | _ :: _, [] => false
  | p :: ps, c :: cs => p == c && startsWithList ps cs

/-- Boolean substring test on character lists, modelling `strstr`. -/
def containsSub (pat : List Char) : List Char → Bool
  | [] => startsWithList pat []
  | c :: cs => startsWithList pat (c :: cs) || containsSub pat cs

/-- Outcomes of the external network primitives during one
connect/handshake attempt. -/
structure NetOracle where
  socket_ok : Bool
  new_fd : Int
  resolve_ok : Bool
  connect_ok : Bool
  hs_send_ok : Bool
  hs_response : Option String
deriving DecidableEq, Repr

/-- Model of `obs_connect_socket` (obs_handler.c lines 315-355);
returns the updated engine and whether the function returned 0. -/
def obs_connect_socket (net : NetOracle) (e : obs_websocket_t) : obs_websocket_t × Bool :=
  let e := obs_set_state e .connecting
  if !net.socket_ok then
    (obs_set_state
      (obs_set_error_flag { e with socket_fd := -1 } OBS_FLAG_NETWORK_ERROR
        "Failed to create socket") .error, false)
  else
    let e := { e with socket_fd := net.new_fd }
    if !net.resolve_ok then
      (obs_set_state
        (obs_set_error_flag e OBS_FLAG_NETWORK_ERROR "Failed to resolve hostname") .error,
       false)
    else if !net.connect_ok then
      ({ obs_set_state
           (obs_set_error_flag e OBS_FLAG_NETWORK_ERROR "Failed to connect to OBS") .error
         with socket_fd := -1 }, false)
    else
      (obs_clear_error_flag
        { e with status_flags := e.status_flags ||| OBS_FLAG_SOCKET_CONNECTED }
        OBS_FLAG_NETWORK_ERROR, true)

/-- Model of `obs_websocket_handshake` (obs_handler.c lines 357-403);
key generation is modelled as succeeding.  `hs_response` is the bytes
`recv` returned (`none` models a failed or empty read). -/
def obs_websocket_handshake (net : NetOracle) (e : obs_websocket_t) : obs_websocket_t × Bool :=
  if !net.hs_send_ok then
    (obs_set_state
      (obs_set_error_flag e OBS_FLAG_PROTOCOL_ERROR "Failed to send WebSocket handshake")
      .error, false)
  else
    match net.hs_response with
    | none =>
      (obs_set_state
        (obs_set_error_flag e OBS_FLAG_PROTOCOL_ERROR
          "Failed to receive WebSocket handshake response") .error, false)
    | some resp =>
      if containsSub "101 Switching Protocols".toList resp.toList then
        (obs_clear_error_flag
          { e with status_flags := e.status_flags ||| OBS_FLAG_WEBSOCKET_READY }
          OBS_FLAG_PROTOCOL_ERROR, true)
      else
        (obs_set_state
          (obs_set_error_flag e OBS_FLAG_PROTOCOL_ERROR
            "Invalid WebSocket handshake response") .error, false)

/-- Whether the whole connect-plus-handshake attempt succeeds for the
given oracle. -/
def attemptSucceeds (net : NetOracle) : Bool :=
  net.socket_ok && net.resolve_ok && net.connect_ok && net.hs_send_ok &&
    (match net.hs_response with
     | some resp => containsSub "101 Switching Protocols".toList resp.toList
     | none => false)

/-- Model of the `OBS_STATE_DISCONNECTED` / `OBS_STATE_RECONNECTING`
branch of `obs_daemon_thread` (obs_handler.c lines 209-219).  The
returned boolean tells whether the `usleep(retry_delay_ms * 1000)`
call executed. -/
def stepDisconnectedReconnecting (net : NetOracle) (e : obs_websocket_t) :
    obs_websocket_t × Bool :=
  let r1 := obs_connect_socket net e
  let e2 :=
    if r1.2 then
      let r2 := obs_websocket_handshake net r1.1
      if r2.2 then
        obs_set_state r2.1 (if r2.1.auth_required then .authenticating else .connected)
      else r2.1
    else r1.1
  (e2, e2.state == .error || e2.state == .disconnected)

/-- Model of the `OBS_STATE_ERROR` branch of `obs_daemon_thread`
(obs_handler.c lines 281-295).  The returned boolean tells whether the
`usleep(retry_delay_ms * 1000)` call executed. -/
def stepErrorState (e : obs_websocket_t) : obs_websocket_t × Bool :=
  let e := if 0 ≤ e.socket_fd then { e with socket_fd := -1 } else e
  let e := { e with retry_count := e.retry_count + 1 }
  if e.retry_count < e.config.max_retries then
    (obs_set_state e .reconnecting, false)
  else
    (e, true)

/-! ### Claim theorems -/

set_option maxRecDepth 100000 in
/-- C2: the authenticator composition
`base64(SHA256(base64(SHA256(password || salt)) || challenge))` with
the concatenations in exactly that order evaluates, at password "abc",
salt "s1", challenge "c1", to the reference value computed
independently by the documented double-SHA-256+base64 procedure. -/
theorem C2_authenticator_reference :
    obs_authenticate "abc" "s1" "c1" = "2NOyAyCN6/M3ksRrRmjwYTgzRTGrv0snpRxJ0AzDvRs=" := by
  decide

/-- C1: for payloads of the boundary sizes 0, 1, 125, 126, 65535, 65536,
encoding with `obs_send_frame` (text opcode, any 4-byte mask key) and
decoding with `obs_read_frame` returns the original payload exactly
(final frame, opcode 1), and the encoder selects the length encoding by
payload size: inline in the second header byte for sizes up to 125, a
16-bit big-endian extension for 126 to 65535, and a 64-bit big-endian
extension above that. -/
theorem C1_frame_roundtrip (payload : List Nat) (m0 m1 m2 m3 : Nat)
    (hp : payload.length = 0 ∨ payload.length = 1 ∨ payload.length = 125 ∨
          payload.length = 126 ∨ payload.length = 65535 ∨ payload.length = 65536) :
    obs_read_frame (obs_send_frame payload [m0, m1, m2, m3] 1) = some (0, payload, 1) ∧
    (payload.length ≤ 125 →
      obs_send_frame payload [m0, m1, m2, m3] 1 =
        [129, 128 + payload.length] ++ [m0, m1, m2, m3] ++ maskBytes [m0, m1, m2, m3] 0 payload) ∧
    (126 ≤ payload.length → payload.length ≤ 65535 →
      obs_send_frame payload [m0, m1, m2, m3] 1 =
        [129, 128 + 126, payload.length / 256 % 256, payload.length % 256] ++
          [m0, m1, m2, m3] ++ maskBytes [m0, m1, m2, m3] 0 payload) ∧
    (65536 ≤ payload.length →
      obs_send_frame payload [m0, m1, m2, m3] 1 =
        [129, 128 + 127] ++ (List.range 8).map (fun i => payload.length / 256 ^ (7 - i) % 256) ++
          [m0, m1, m2, m3] ++ maskBytes [m0, m1, m2, m3] 0 payload) := by
  rcases hp with hlen | hlen | hlen | hlen | hlen | hlen
  · -- payload length 0: inline length byte 128
    have hpay : payload = [] := List.length_eq_zero.mp hlen
    subst hpay
    refine ⟨?_, ?_, ?_, ?_⟩
    · simp [obs_send_frame, obs_read_frame, maskBytes,
        (by decide : (128 : Nat) ||| (1 &&& 15) = 129), (by decide : (0 : Nat) &&& 127 = 0),
        (by decide : (128 : Nat) ||| 0 = 128), (by decide : (129 : Nat) >>> 7 &&& 1 = 1),
        (by decide : (129 : Nat) &&& 15 = 1), (by decide : (128 : Nat) >>> 7 &&& 1 = 1),
        (by decide : (128 : Nat) &&& 127 = 0)]
    · intro _
      simp [obs_send_frame, maskBytes, (by decide : (128 : Nat) ||| (1 &&& 15) = 129),
        (by decide : (0 : Nat) &&& 127 = 0), (by decide : (128 : Nat) ||| 0 = 128)]
    · intro h _; exact absurd h (by simp)
    · intro h; exact absurd h (by simp)
  · -- payload length 1: inline length byte 129
    have hframe : obs_send_frame payload [m0, m1, m2, m3] 1 =
        129 :: 129 :: m0 :: m1 :: m2 :: m3 :: maskBytes [m0, m1, m2, m3] 0 payload := by
      simp [obs_send_frame, hlen, (by decide : (128 : Nat) ||| (1 &&& 15) = 129),
        (by decide : (1 : Nat) &&& 127 = 1), (by decide : (128 : Nat) ||| 1 = 129)]
    have hmlen : (maskBytes [m0, m1, m2, m3] 0 payload).length = 1 := by
      rw [maskBytes_length, hlen]
    have htake : (maskBytes [m0, m1, m2, m3] 0 payload).take 1 =
        maskBytes [m0, m1, m2, m3] 0 payload := List.take_of_length_le (le_of_eq hmlen)
    refine ⟨?_, ?_, ?_, ?_⟩
    · rw [hframe]
      simp [obs_read_frame, hmlen, htake, maskBytes_maskBytes,
        (by decide : (129 : Nat) >>> 7 &&& 1 = 1), (by decide : (129 : Nat) &&& 15 = 1),
        (by decide : (129 : Nat) &&& 127 = 1)]
    · intro _; rw [hframe, hlen]; simp
    · intro h _; exact absurd h (by omega)
    · intro h; exact absurd h (by omega)
  · -- payload length 125: inline length byte 253
    have hframe : obs_send_frame payload [m0, m1, m2, m3] 1 =
        129 :: 253 :: m0 :: m1 :: m2 :: m3 :: maskBytes [m0, m1, m2, m3] 0 payload := by
      simp [obs_send_frame, hlen, (by decide : (128 : Nat) ||| (1 &&& 15) = 129),
        (by decide : (125 : Nat) &&& 127 = 125), (by decide : (128 : Nat) ||| 125 = 253)]
    have hmlen : (maskBytes [m0, m1, m2, m3] 0 payload).length = 125 := by
      rw [maskBytes_length, hlen]
    have htake : (maskBytes [m0, m1, m2, m3] 0 payload).take 125 =
        maskBytes [m0, m1, m2, m3] 0 payload := List.take_of_length_le (le_of_eq hmlen)
    refine ⟨?_, ?_, ?_, ?_⟩
    · rw [hframe]
      simp [obs_read_frame, hmlen, htake, maskBytes_maskBytes,
        (by decide : (129 : Nat) >>> 7 &&& 1 = 1), (by decide : (129 : Nat) &&& 15 = 1),
        (by decide : (253 : Nat) >>> 7 &&& 1 = 1), (by decide : (253 : Nat) &&& 127 = 125)]
    · intro _; rw [hframe, hlen]; simp
    · intro h _; exact absurd h (by omega)
    · intro h; exact absurd h (by omega)
  · -- payload length 126: 16-bit extension [0, 126]
    have hframe : obs_send_frame payload [m0, m1, m2, m3] 1 =
        129 :: 254 :: 0 :: 126 :: m0 :: m1 :: m2 :: m3 :: maskBytes [m0, m1, m2, m3] 0 payload := by
      simp [obs_send_frame, hlen, (by decide : (128 : Nat) ||| (1 &&& 15) = 129),
        (by decide : (128 : Nat) ||| 126 = 254), (by decide : (126 : Nat) >>> 8 &&& 255 = 0),
        (by decide : (126 : Nat) &&& 255 = 126)]
    have hmlen : (maskBytes [m0, m1, m2, m3] 0 payload).length = 126 := by
      rw [maskBytes_length, hlen]
    have htake : (maskBytes [m0, m1, m2, m3] 0 payload).take 126 =
        maskBytes [m0, m1, m2, m3] 0 payload := List.take_of_length_le (le_of_eq hmlen)
    refine ⟨?_, ?_, ?_, ?_⟩
    · rw [hframe]
      simp [obs_read_frame, hmlen, htake, maskBytes_maskBytes,
        (by decide : (129 : Nat) >>> 7 &&& 1 = 1), (by decide : (129 : Nat) &&& 15 = 1),
        (by decide : (254 : Nat) >>> 7 &&& 1 = 1), (by decide : (254 : Nat) &&& 127 = 126)]
    · intro h; exact absurd h (by omega)
    · intro _ _; rw [hframe, hlen]; simp
    · intro h; exact absurd h (by omega)
  · -- payload length 65535: 16-bit extension [255, 255]
    have hframe : obs_send_frame payload [m0, m1, m2, m3] 1 =
        129 :: 254 :: 255 :: 255 :: m0 :: m1 :: m2 :: m3 ::
          maskBytes [m0, m1, m2, m3] 0 payload := by
      simp [obs_send_frame, hlen, (by decide : (128 : Nat) ||| (1 &&& 15) = 129),
        (by decide : (128 : Nat) ||| 126 = 254), (by decide : (65535 : Nat) >>> 8 &&& 255 = 255),
        (by decide : (65535 : Nat) &&& 255 = 255)]
    have hmlen : (maskBytes [m0, m1, m2, m3] 0 payload).length = 65535 := by
      rw [maskBytes_length, hlen]
    have htake : (maskBytes [m0, m1, m2, m3] 0 payload).take 65535 =
        maskBytes [m0, m1, m2, m3] 0 payload := List.take_of_length_le (le_of_eq hmlen)
    refine ⟨?_, ?_, ?_, ?_⟩
    · rw [hframe]
      simp [obs_read_frame, hmlen, htake, maskBytes_maskBytes,
        (by decide : (129 : Nat) >>> 7 &&& 1 = 1), (by decide : (129 : Nat) &&& 15 = 1),
        (by decide : (254 : Nat) >>> 7 &&& 1 = 1), (by decide : (254 : Nat) &&& 127 = 126),
        (by decide : (255 : Nat) <<< 8 ||| 255 = 65535)]
    · intro h; exact absurd h (by omega)
    · intro _ _; rw [hframe, hlen]; simp
    · intro h; exact absurd h (by omega)
  · -- payload length 65536: 64-bit extension
    have hframe : obs_send_frame payload [m0, m1, m2, m3] 1 =
        129 :: 255 :: 0 :: 0 :: 0 :: 0 :: 0 :: 1 :: 0 :: 0 :: m0 :: m1 :: m2 :: m3 ::
          maskBytes [m0, m1, m2, m3] 0 payload := by
      simp [obs_send_frame, hlen, (by decide : (128 : Nat) ||| (1 &&& 15) = 129),
        (by decide : (128 : Nat) ||| 127 = 255),
        (by decide : (List.range 8).map (fun i => (65536 : Nat) >>> (8 * (7 - i)) &&& 255) =
          [0, 0, 0, 0, 0, 1, 0, 0])]
    have hmlen : (maskBytes [m0, m1, m2, m3] 0 payload).length = 65536 := by
      rw [maskBytes_length, hlen]
    have htake : (maskBytes [m0, m1, m2, m3] 0 payload).take 65536 =
        maskBytes [m0, m1, m2, m3] 0 payload := List.take_of_length_le (le_of_eq hmlen)
    refine ⟨?_, ?_, ?_, ?_⟩
    · rw [hframe]
      simp [obs_read_frame, hmlen, htake, maskBytes_maskBytes,
        (by decide : (129 : Nat) >>> 7 &&& 1 = 1), (by decide : (129 : Nat) &&& 15 = 1),
        (by decide : (255 : Nat) >>> 7 &&& 1 = 1), (by decide : (255 : Nat) &&& 127 = 127),
        (by decide : (1 : Nat) <<< 8 = 256), (by decide : (256 : Nat) <<< 8 = 65536)]
    · intro h; exact absurd h (by omega)
    · intro _ h; exact absurd h (by omega)
    · intro _
      rw [hframe, hlen]
      simp [(by decide : (List.range 8).map (fun i => (65536 : Nat) / 256 ^ (7 - i) % 256) =
        [0, 0, 0, 0, 0, 1, 0, 0])]

/-- Witness for C1 at the concrete empty payload and mask key 1,2,3,4. -/
theorem C1_frame_roundtrip_witness :
    ([] : List Nat).length = 0 ∧
    (obs_read_frame (obs_send_frame [] [1, 2, 3, 4] 1) = some (0, [], 1) ∧
     (([] : List Nat).length ≤ 125 →
       obs_send_frame [] [1, 2, 3, 4] 1 =
         [129, 128 + ([] : List Nat).length] ++ [1, 2, 3, 4] ++ maskBytes [1, 2, 3, 4] 0 []) ∧
     (126 ≤ ([] : List Nat).length → ([] : List Nat).length ≤ 65535 →
       obs_send_frame [] [1, 2, 3, 4] 1 =
         [129, 128 + 126, ([] : List Nat).length / 256 % 256, ([] : List Nat).length % 256] ++
           [1, 2, 3, 4] ++ maskBytes [1, 2, 3, 4] 0 []) ∧
     (65536 ≤ ([] : List Nat).length →
       obs_send_frame [] [1, 2, 3, 4] 1 =
         [129, 128 + 127] ++
           (List.range 8).map (fun i => ([] : List Nat).length / 256 ^ (7 - i) % 256) ++
           [1, 2, 3, 4] ++ maskBytes [1, 2, 3, 4] 0 [])) :=
  ⟨rfl, C1_frame_roundtrip [] 1 2 3 4 (Or.inl rfl)⟩

/-- An engine with a cached current scene, used to instantiate
hypotheses at concrete inputs. -/
def sceneEngine : obs_websocket_t :=
  { initialEngine obs_websocket_default_config with current_scene := "Main" }

/-- An engine sitting in the `error` state, used to instantiate
hypotheses at concrete inputs. -/
def errEngine : obs_websocket_t :=
  { initialEngine obs_websocket_default_config with state := .error }

theorem string_length_zero_iff (s : String) : s.length = 0 ↔ s = "" := by
  cases s with
  | mk data =>
    constructor
    · intro h
      have hd : data = [] := List.length_eq_zero.mp h
      rw [hd]
    · intro h
      rw [h]
      rfl

/-- C4: with scene caching enabled and the requested name equal to the
cached current scene, `switch_scene` returns 0 and leaves the engine —
in particular the command queue and the sent-message counter —
unchanged; hence two successive calls with that name change nothing. -/
theorem C4_cache_hit_idempotent (e : obs_websocket_t) (n : String)
    (p p2 : obs_command_priority_t) (rid rid2 : String) (t t2 : Int)
    (hc : e.config.enable_scene_cache = true) (hs : e.current_scene = n) :
    obs_websocket_switch_scene e n p rid t = (0, e) ∧
    obs_websocket_switch_scene (obs_websocket_switch_scene e n p rid t).2 n p2 rid2 t2 =
      (0, e) ∧
    ((obs_websocket_switch_scene
        (obs_websocket_switch_scene e n p rid t).2 n p2 rid2 t2).2).stats.messages_sent =
      e.stats.messages_sent ∧
    ((obs_websocket_switch_scene
        (obs_websocket_switch_scene e n p rid t).2 n p2 rid2 t2).2).command_queue_count =
      e.command_queue_count := by
  have h1 : obs_websocket_switch_scene e n p rid t = (0, e) := by
    simp [obs_websocket_switch_scene, hc, hs]
  have h2 : obs_websocket_switch_scene e n p2 rid2 t2 = (0, e) := by
    simp [obs_websocket_switch_scene, hc, hs]
  rw [h1]
  exact ⟨rfl, h2, by rw [h2], by rw [h2]⟩

/-- Witness for C4 at a concrete cached engine. -/
theorem C4_cache_hit_idempotent_witness :
    obs_websocket_switch_scene sceneEngine "Main" .normal "r1" 0 = (0, sceneEngine) ∧
    obs_websocket_switch_scene (obs_websocket_switch_scene sceneEngine "Main" .normal "r1" 0).2
        "Main" .high "r2" 1 = (0, sceneEngine) ∧
    ((obs_websocket_switch_scene (obs_websocket_switch_scene sceneEngine "Main" .normal "r1" 0).2
        "Main" .high "r2" 1).2).stats.messages_sent = sceneEngine.stats.messages_sent ∧
    ((obs_websocket_switch_scene (obs_websocket_switch_scene sceneEngine "Main" .normal "r1" 0).2
        "Main" .high "r2" 1).2).command_queue_count = sceneEngine.command_queue_count :=
  C4_cache_hit_idempotent sceneEngine "Main" .normal .high "r1" "r2" 0 1 rfl rfl

/-- C6: `init` (equivalently `validate_config`) rejects a configuration
exactly when the host is empty, the port lies outside 1-65535, or the
queue capacity is 0, and produces an engine exactly when all three
checks pass. -/
theorem C6_init_validates_config (c : obs_config_t) :
    (obs_websocket_validate_config (some c) = 0 ↔
      (c.host ≠ "" ∧ 1 ≤ c.port ∧ c.port ≤ 65535 ∧ c.command_queue_size ≠ 0)) ∧
    ((∃ e, obs_websocket_init (some c) = .ok e) ↔
      (c.host ≠ "" ∧ 1 ≤ c.port ∧ c.port ≤ 65535 ∧ c.command_queue_size ≠ 0)) ∧
    (¬(c.host ≠ "" ∧ 1 ≤ c.port ∧ c.port ≤ 65535 ∧ c.command_queue_size ≠ 0) →
      obs_websocket_init (some c) = .error (-2)) := by
  have hval : obs_websocket_validate_config (some c) = 0 ↔
      (c.host ≠ "" ∧ 1 ≤ c.port ∧ c.port ≤ 65535 ∧ c.command_queue_size ≠ 0) := by
    simp only [obs_websocket_validate_config]
    split_ifs with h1 h2 h3
    · have he : c.host = "" := (string_length_zero_iff c.host).mp h1
      constructor
      · intro h0; exact absurd h0 (by decide)
      · rintro ⟨hne, -, -, -⟩; exact absurd he hne
    · constructor
      · intro h0; exact absurd h0 (by decide)
      · rintro ⟨-, hp1, hp2, -⟩; exact absurd h2 (by omega)
    · constructor
      · intro h0; exact absurd h0 (by decide)
      · rintro ⟨-, -, -, hq⟩; exact absurd h3 hq
    · constructor
      · intro _
        exact ⟨fun he => h1 ((string_length_zero_iff c.host).mpr he), by omega, by omega, h3⟩
      · intro _; rfl
  refine ⟨hval, ?_, ?_⟩
  · constructor
    · rintro ⟨e, he⟩
      by_cases hv : obs_websocket_validate_config (some c) = 0
      · exact hval.mp hv
      · simp [obs_websocket_init, hv] at he
    · intro h
      have hv := hval.mpr h
      exact ⟨initialEngine c, by simp [obs_websocket_init, hv]⟩
  · intro h
    have hv : obs_websocket_validate_config (some c) ≠ 0 := fun h0 => h (hval.mp h0)
    simp [obs_websocket_init, hv]

/-- Witness for C6 at the default configuration (valid) and at the
default configuration with port 0 (invalid). -/
theorem C6_init_validates_config_witness :
    obs_websocket_validate_config (some obs_websocket_default_config) = 0 ∧
    (∃ e, obs_websocket_init (some obs_websocket_default_config) = .ok e) ∧
    obs_websocket_init (some { obs_websocket_default_config with port := 0 }) =
      .error (-2) :=
  ⟨(C6_init_validates_config obs_websocket_default_config).1.mpr (by decide),
   (C6_init_validates_config obs_websocket_default_config).2.1.mpr (by decide),
   (C6_init_validates_config { obs_websocket_default_config with port := 0 }).2.2 (by decide)⟩

/-- C7: one pass of the `error` branch closes and invalidates the
socket, increments the retry counter by exactly 1, then moves to
`reconnecting` without sleeping when the incremented counter is below
`max_retries` and otherwise stays in `error` and sleeps. -/
theorem C7_error_branch (e : obs_websocket_t) (hs : e.state = .error) :
    (stepErrorState e).1.retry_count = e.retry_count + 1 ∧
    (e.retry_count + 1 < e.config.max_retries →
      (stepErrorState e).1.state = .reconnecting ∧ (stepErrorState e).2 = false) ∧
    (¬(e.retry_count + 1 < e.config.max_retries) →
      (stepErrorState e).1.state = .error ∧ (stepErrorState e).2 = true) ∧
    (-1 ≤ e.socket_fd → (stepErrorState e).1.socket_fd = -1) := by
  unfold stepErrorState
  by_cases hfd : 0 ≤ e.socket_fd <;>
    by_cases hr : e.retry_count + 1 < e.config.max_retries <;>
      simp [hfd, hr, obs_set_state, hs] <;> omega

/-- Witness for C7 at a concrete engine in the error state. -/
theorem C7_error_branch_witness :
    (stepErrorState errEngine).1.retry_count = errEngine.retry_count + 1 ∧
    (stepErrorState errEngine).1.state = .reconnecting ∧
    (stepErrorState errEngine).2 = false ∧
    (stepErrorState errEngine).1.socket_fd = -1 :=
  ⟨(C7_error_branch errEngine rfl).1,
   ((C7_error_branch errEngine rfl).2.1 (by decide)).1,
   ((C7_error_branch errEngine rfl).2.1 (by decide)).2,
   (C7_error_branch errEngine rfl).2.2.2 (by decide)⟩

/-- C9: `get_current_scene` returns NULL exactly for a NULL engine or
an empty cached scene, and a non-NULL result is never the empty
string. -/
theorem C9_get_current_scene_spec (e : obs_websocket_t) :
    obs_websocket_get_current_scene none = none ∧
    (obs_websocket_get_current_scene (some e) = none ↔ e.current_scene = "") ∧
    (∀ (o : Option obs_websocket_t) (s : String),
      obs_websocket_get_current_scene o = some s → s ≠ "") := by
  refine ⟨rfl, ?_, ?_⟩
  · by_cases h : e.current_scene = "" <;> simp [obs_websocket_get_current_scene, h]
  · intro o s hos
    match o with
    | none => exact absurd hos (by simp [obs_websocket_get_current_scene])
    | some e2 =>
      by_cases h : e2.current_scene = ""
      · simp [obs_websocket_get_current_scene, h] at hos
      · simp [obs_websocket_get_current_scene, h] at hos
        exact hos ▸ h

/-- Witness for C9 at a concrete engine with a cached scene. -/
theorem C9_get_current_scene_spec_witness :
    obs_websocket_get_current_scene none = none ∧
    (obs_websocket_get_current_scene (some sceneEngine) = none ↔
      sceneEngine.current_scene = "") ∧
    ("Main" : String) ≠ "" :=
  ⟨(C9_get_current_scene_spec sceneEngine).1,
   (C9_get_current_scene_spec sceneEngine).2.1,
   (C9_get_current_scene_spec sceneEngine).2.2 (some sceneEngine) "Main" rfl⟩

/-- C10: on a freshly initialized engine with scene caching enabled,
`switch_scene` with the empty string hits the cache fast path (the
cached scene is initialized empty), returning 0 and enqueueing
nothing. -/
theorem C10_fresh_engine_empty_scene (c : obs_config_t) (p : obs_command_priority_t)
    (rid : String) (t : Int) (e : obs_websocket_t)
    (hc : c.enable_scene_cache = true)
    (hinit : obs_websocket_init (some c) = .ok e) :
    obs_websocket_switch_scene e "" p rid t = (0, e) ∧
    (obs_websocket_switch_scene e "" p rid t).2.command_queue_count = 0 := by
  have he : e = initialEngine c := by
    by_cases hv : obs_websocket_validate_config (some c) = 0
    · simp [obs_websocket_init, hv] at hinit
      exact hinit.symm
    · simp [obs_websocket_init, hv] at hinit
  subst he
  constructor
  · simp [obs_websocket_switch_scene, initialEngine, hc]
  · simp [obs_websocket_switch_scene, initialEngine, hc]

/-- Witness for C10 at the default configuration. -/
theorem C10_fresh_engine_empty_scene_witness :
    obs_websocket_switch_scene (initialEngine obs_websocket_default_config) "" .critical "r" 5 =
      (0, initialEngine obs_websocket_default_config) ∧
    (obs_websocket_switch_scene (initialEngine obs_websocket_default_config) ""
        .critical "r" 5).2.command_queue_count = 0 :=
  C10_fresh_engine_empty_scene obs_websocket_default_config .critical "r" 5
    (initialEngine obs_websocket_default_config) rfl rfl

theorem getQueue_setQueue (e : obs_websocket_t) (p q : obs_command_priority_t)
    (l : List obs_command_t) :
    getQueue (setQueue e p l) q = if q = p then l else getQueue e q := by
  cases p <;> cases q <;> simp [getQueue, setQueue]

/-- C3: one drain step removes and sends exactly the head command of
the highest-priority non-empty list, leaving the other lists
untouched; consequently a critical command enqueued after a normal one
is sent first, and two commands enqueued at the same priority are sent
in reverse order of enqueue (insertion is at the list head). -/
theorem C3_priority_queue_drain :
    (∀ (e : obs_websocket_t) (p : obs_command_priority_t) (c : obs_command_t)
        (tl : List obs_command_t),
        c.type = .switch_scene → getQueue e p = c :: tl →
        (∀ q, priorityNat p < priorityNat q → getQueue e q = []) →
        getQueue (obs_process_command_queue e) p = tl ∧
        (∀ q, q ≠ p → getQueue (obs_process_command_queue e) q = getQueue e q) ∧
        (obs_process_command_queue e).command_queue_count = e.command_queue_count - 1 ∧
        (obs_process_command_queue e).sent_log = e.sent_log ++ [c] ∧
        (obs_process_command_queue e).stats.messages_sent = e.stats.messages_sent + 1) ∧
    (∀ (e : obs_websocket_t) (n1 n2 rid1 rid2 : String) (t1 t2 : Int),
        e.config.enable_scene_cache = false →
        e.command_queue_count + 2 ≤ e.config.command_queue_size →
        (obs_process_command_queue
            (obs_websocket_switch_scene
              (obs_websocket_switch_scene e n1 .normal rid1 t1).2
              n2 .critical rid2 t2).2).sent_log =
          e.sent_log ++
            [{ type := .switch_scene, priority := .critical,
               scene_name := String.mk (n2.toList.take 255), request_id := rid2,
               created_time := t2 }]) ∧
    (∀ (e : obs_websocket_t) (n1 n2 rid1 rid2 : String) (t1 t2 : Int),
        e.config.enable_scene_cache = false →
        e.command_queue_count + 2 ≤ e.config.command_queue_size →
        (obs_process_command_queue (obs_process_command_queue
            (obs_websocket_switch_scene
              (obs_websocket_switch_scene e n1 .critical rid1 t1).2
              n2 .critical rid2 t2).2)).sent_log =
          e.sent_log ++
            [{ type := .switch_scene, priority := .critical,
               scene_name := String.mk (n2.toList.take 255), request_id := rid2,
               created_time := t2 },
             { type := .switch_scene, priority := .critical,
               scene_name := String.mk (n1.toList.take 255), request_id := rid1,
               created_time := t1 }]) := by
  refine ⟨?_, ?_, ?_⟩
  · intro e p c tl htype hhead hhigher
    cases p
    case critical =>
      simp only [getQueue] at hhead
      refine ⟨?_, ?_, ?_, ?_, ?_⟩
      · simp [obs_process_command_queue, hhead, sendSwitchSceneCmd, htype, getQueue]
      · intro q hq
        cases q
        · simp [obs_process_command_queue, hhead, sendSwitchSceneCmd, htype, getQueue]
        · simp [obs_process_command_queue, hhead, sendSwitchSceneCmd, htype, getQueue]
        · simp [obs_process_command_queue, hhead, sendSwitchSceneCmd, htype, getQueue]
        · exact absurd rfl hq
      · simp [obs_process_command_queue, hhead, sendSwitchSceneCmd, htype]
      · simp [obs_process_command_queue, hhead, sendSwitchSceneCmd, htype]
      · simp [obs_process_command_queue, hhead, sendSwitchSceneCmd, htype]
    case high =>
      have hq3 : e.queue_critical = [] := hhigher .critical (by decide)
      simp only [getQueue] at hhead
      refine ⟨?_, ?_, ?_, ?_, ?_⟩
      · simp [obs_process_command_queue, hq3, hhead, sendSwitchSceneCmd, htype, getQueue]
      · intro q hq
        cases q
        · simp [obs_process_command_queue, hq3, hhead, sendSwitchSceneCmd, htype, getQueue]
        · simp [obs_process_command_queue, hq3, hhead, sendSwitchSceneCmd, htype, getQueue]
        · exact absurd rfl hq
        · simp [obs_process_command_queue, hq3, hhead, sendSwitchSceneCmd, htype, getQueue]
      · simp [obs_process_command_queue, hq3, hhead, sendSwitchSceneCmd, htype]
      · simp [obs_process_command_queue, hq3, hhead, sendSwitchSceneCmd, htype]
      · simp [obs_process_command_queue, hq3, hhead, sendSwitchSceneCmd, htype]
    case normal =>
      have hq3 : e.queue_critical = [] := hhigher .critical (by decide)
      have hq2 : e.queue_high = [] := hhigher .high (by decide)
      simp only [getQueue] at hhead
      refine ⟨?_, ?_, ?_, ?_, ?_⟩
      · simp [obs_process_command_queue, hq3, hq2, hhead, sendSwitchSceneCmd, htype, getQueue]
      · intro q hq
        cases q
        · simp [obs_process_command_queue, hq3, hq2, hhead, sendSwitchSceneCmd, htype, getQueue]
        · exact absurd rfl hq
        · simp [obs_process_command_queue, hq3, hq2, hhead, sendSwitchSceneCmd, htype, getQueue]
        · simp [obs_process_command_queue, hq3, hq2, hhead, sendSwitchSceneCmd, htype, getQueue]
      · simp [obs_process_command_queue, hq3, hq2, hhead, sendSwitchSceneCmd, htype]
      · simp [obs_process_command_queue, hq3, hq2, hhead, sendSwitchSceneCmd, htype]
      · simp [obs_process_command_queue, hq3, hq2, hhead, sendSwitchSceneCmd, htype]
    case low =>
      have hq3 : e.queue_critical = [] := hhigher .critical (by decide)
      have hq2 : e.queue_high = [] := hhigher .high (by decide)
      have hq1 : e.queue_normal = [] := hhigher .normal (by decide)
      simp only [getQueue] at hhead
      refine ⟨?_, ?_, ?_, ?_, ?_⟩
      · simp [obs_process_command_queue, hq3, hq2, hq1, hhead, sendSwitchSceneCmd, htype,
          getQueue]
      · intro q hq
        cases q
        · exact absurd rfl hq
        · simp [obs_process_command_queue, hq3, hq2, hq1, hhead, sendSwitchSceneCmd, htype,
            getQueue]
        · simp [obs_process_command_queue, hq3, hq2, hq1, hhead, sendSwitchSceneCmd, htype,
            getQueue]
        · simp [obs_process_command_queue, hq3, hq2, hq1, hhead, sendSwitchSceneCmd, htype,
            getQueue]
      · simp [obs_process_command_queue, hq3, hq2, hq1, hhead, sendSwitchSceneCmd, htype]
      · simp [obs_process_command_queue, hq3, hq2, hq1, hhead, sendSwitchSceneCmd, htype]
      · simp [obs_process_command_queue, hq3, hq2, hq1, hhead, sendSwitchSceneCmd, htype]
  · intro e n1 n2 rid1 rid2 t1 t2 hcache hcap
    have hfull1 : ¬(e.config.command_queue_size ≤ e.command_queue_count) := by omega
    have hfull2 : ¬(e.config.command_queue_size ≤ e.command_queue_count + 1) := by omega
    simp [obs_websocket_switch_scene, obs_process_command_queue, sendSwitchSceneCmd,
      setQueue, getQueue, hcache, hfull1, hfull2]
  · intro e n1 n2 rid1 rid2 t1 t2 hcache hcap
    have hfull1 : ¬(e.config.command_queue_size ≤ e.command_queue_count) := by omega
    have hfull2 : ¬(e.config.command_queue_size ≤ e.command_queue_count + 1) := by omega
    simp [obs_websocket_switch_scene, obs_process_command_queue, sendSwitchSceneCmd,
      setQueue, getQueue, hcache, hfull1, hfull2]

/-- A queued switch-scene command for instantiating C3. -/
def normalCmd : obs_command_t :=
  { type := .switch_scene, priority := .normal, scene_name := "A", request_id := "r",
    created_time := 0 }

/-- An engine with one queued normal-priority command for
instantiating C3. -/
def queuedEngine : obs_websocket_t :=
  { initialEngine obs_websocket_default_config with
    queue_normal := [normalCmd], command_queue_count := 1 }

/-- An engine with scene caching disabled for instantiating C3. -/
def noCacheEngine : obs_websocket_t :=
  initialEngine { obs_websocket_default_config with enable_scene_cache := false }

/-- Witness for C3 at a concrete engine. -/
theorem C3_priority_queue_drain_witness :
    (getQueue (obs_process_command_queue queuedEngine) .normal = [] ∧
      (∀ q, q ≠ .normal →
        getQueue (obs_process_command_queue queuedEngine) q = getQueue queuedEngine q) ∧
      (obs_process_command_queue queuedEngine).command_queue_count =
        queuedEngine.command_queue_count - 1 ∧
      (obs_process_command_queue queuedEngine).sent_log =
        queuedEngine.sent_log ++ [normalCmd] ∧
      (obs_process_command_queue queuedEngine).stats.messages_sent =
        queuedEngine.stats.messages_sent + 1) ∧
    (obs_process_command_queue
        (obs_websocket_switch_scene
          (obs_websocket_switch_scene noCacheEngine "N" .normal "r1" 1).2
          "C" .critical "r2" 2).2).sent_log =
      noCacheEngine.sent_log ++
        [{ type := .switch_scene, priority := .critical,
           scene_name := String.mk ("C".toList.take 255), request_id := "r2",
           created_time := 2 }] ∧
    (obs_process_command_queue (obs_process_command_queue
        (obs_websocket_switch_scene
          (obs_websocket_switch_scene noCacheEngine "X" .critical "r1" 1).2
          "Y" .critical "r2" 2).2)).sent_log =
      noCacheEngine.sent_log ++
        [{ type := .switch_scene, priority := .critical,
           scene_name := String.mk ("Y".toList.take 255), request_id := "r2",
           created_time := 2 },
         { type := .switch_scene, priority := .critical,
           scene_name := String.mk ("X".toList.take 255), request_id := "r1",
           created_time := 1 }] :=
  ⟨C3_priority_queue_drain.1 queuedEngine .normal normalCmd [] rfl rfl
      (fun q hq => by cases q <;> first | rfl | exact absurd hq (by decide)),
   C3_priority_queue_drain.2.1 noCacheEngine "N" "C" "r1" "r2" 1 2 rfl (by decide),
   C3_priority_queue_drain.2.2 noCacheEngine "X" "Y" "r1" "r2" 1 2 rfl (by decide)⟩

/-- Enqueue a list of scene names in order via `switch_scene` (normal
priority, fixed request id and time), collecting the return codes. -/
def enqueueAllResults : obs_websocket_t → List String → List Int × obs_websocket_t
  | e, [] => ([], e)
  | e, n :: ns =>
    let r := obs_websocket_switch_scene e n .normal "" 0
    let rest := enqueueAllResults r.2 ns
    (r.1 :: rest.1, rest.2)

theorem flag_or_and (a f : Nat) : (a ||| f) &&& f = f := by
  apply Nat.eq_of_testBit_eq
  intro i
  simp only [Nat.testBit_and, Nat.testBit_or]
  cases Nat.testBit f i <;> cases Nat.testBit a i <;> simp

theorem enqueueAllResults_spec (names : List String) : ∀ (e : obs_websocket_t),
    e.config.enable_scene_cache = false →
    e.command_queue_count + names.length ≤ e.config.command_queue_size →
    (enqueueAllResults e names).1 = List.replicate names.length 0 ∧
    (enqueueAllResults e names).2.command_queue_count =
      e.command_queue_count + names.length ∧
    (enqueueAllResults e names).2.config = e.config := by
  induction names with
  | nil =>
    intro e _ _
    exact ⟨rfl, by simp [enqueueAllResults], rfl⟩
  | cons n ns ih =>
    intro e h1 h2
    have hcap : ¬(e.config.command_queue_size ≤ e.command_queue_count) := by
      simp only [List.length_cons] at h2
      omega
    have step : obs_websocket_switch_scene e n .normal "" 0 =
        (0, { e with
              queue_normal :=
                { type := .switch_scene, priority := .normal,
                  scene_name := String.mk (n.toList.take 255), request_id := "",
                  created_time := 0 } :: e.queue_normal,
              command_queue_count := e.command_queue_count + 1 }) := by
      simp [obs_websocket_switch_scene, h1, hcap, setQueue, getQueue]
    obtain ⟨ih1, ih2, ih3⟩ := ih
      { e with
        queue_normal :=
          { type := .switch_scene, priority := .normal,
            scene_name := String.mk (n.toList.take 255), request_id := "",
            created_time := 0 } :: e.queue_normal,
        command_queue_count := e.command_queue_count + 1 }
      h1
      (by simp only [List.length_cons] at h2; simp; omega)
    refine ⟨?_, ?_, ?_⟩
    · simp only [enqueueAllResults, step]
      rw [ih1]
      simp [List.replicate]
    · simp only [enqueueAllResults, step]
      rw [ih2]
      simp only [List.length_cons]
      omega
    · simp only [enqueueAllResults, step]
      rw [ih3]

/-- C5: on a cache miss, `switch_scene` fails exactly when the queued
count has reached the configured capacity (returning the queue-full
error, leaving every queue and the count unchanged and setting the
queue-full flag), succeeds otherwise, never returns any other code,
is insensitive to the connection state (never fails for not being
connected), and fails only for NULL arguments otherwise; enqueueing
`command_queue_size` commands from an empty queue all succeed and the
next one returns queue-full. -/
theorem C5_queue_full_exact :
    (∀ (e : obs_websocket_t) (n : String) (p : obs_command_priority_t) (rid : String) (t : Int),
        (e.config.enable_scene_cache = false ∨ e.current_scene ≠ n) →
        ((obs_websocket_switch_scene e n p rid t).1 = 0 ∨
         (obs_websocket_switch_scene e n p rid t).1 = -3)) ∧
    (∀ (e : obs_websocket_t) (n : String) (p : obs_command_priority_t) (rid : String) (t : Int),
        (e.config.enable_scene_cache = false ∨ e.current_scene ≠ n) →
        e.command_queue_count ≤ e.config.command_queue_size →
        ((obs_websocket_switch_scene e n p rid t).1 = -3 ↔
          e.command_queue_count = e.config.command_queue_size)) ∧
    (∀ (e : obs_websocket_t) (n : String) (p : obs_command_priority_t) (rid : String) (t : Int),
        (e.config.enable_scene_cache = false ∨ e.current_scene ≠ n) →
        e.config.command_queue_size ≤ e.command_queue_count →
        (obs_websocket_switch_scene e n p rid t).1 = -3 ∧
        (∀ q, getQueue (obs_websocket_switch_scene e n p rid t).2 q = getQueue e q) ∧
        (obs_websocket_switch_scene e n p rid t).2.command_queue_count =
          e.command_queue_count ∧
        (obs_websocket_switch_scene e n p rid t).2.status_flags &&& OBS_FLAG_QUEUE_FULL =
          OBS_FLAG_QUEUE_FULL) ∧
    (∀ (e : obs_websocket_t) (n : String) (p : obs_command_priority_t) (rid : String) (t : Int)
        (s : obs_connection_state_t),
        (obs_websocket_switch_scene { e with state := s } n p rid t).1 =
          (obs_websocket_switch_scene e n p rid t).1) ∧
    (∀ (o : Option obs_websocket_t) (p : obs_command_priority_t) (rid : String) (t : Int),
        obs_websocket_switch_scene_checked o none p rid t = (-1, o)) ∧
    (∀ (n : String) (p : obs_command_priority_t) (rid : String) (t : Int),
        obs_websocket_switch_scene_checked none (some n) p rid t = (-1, none)) ∧
    (∀ (e : obs_websocket_t) (names : List String) (n : String)
        (p : obs_command_priority_t) (rid : String) (t : Int),
        e.config.enable_scene_cache = false →
        e.command_queue_count = 0 →
        names.length = e.config.command_queue_size →
        (enqueueAllResults e names).1 = List.replicate names.length 0 ∧
        (obs_websocket_switch_scene (enqueueAllResults e names).2 n p rid t).1 = -3) := by
  have hcond : ∀ (e : obs_websocket_t) (n : String),
      (e.config.enable_scene_cache = false ∨ e.current_scene ≠ n) →
      (e.config.enable_scene_cache && (e.current_scene == n)) = false := by
    intro e n hm
    rcases hm with h | h
    · simp [h]
    · simp [h]
  refine ⟨?_, ?_, ?_, ?_, ?_, ?_, ?_⟩
  · intro e n p rid t hm
    by_cases hcap : e.config.command_queue_size ≤ e.command_queue_count
    · right; simp [obs_websocket_switch_scene, hcond e n hm, hcap]
    · left; simp [obs_websocket_switch_scene, hcond e n hm, hcap]
  · intro e n p rid t hm hinv
    by_cases hcap : e.config.command_queue_size ≤ e.command_queue_count
    · have heq : e.command_queue_count = e.config.command_queue_size := by omega
      simp [obs_websocket_switch_scene, hcond e n hm, hcap, heq]
    · have hne : e.command_queue_count ≠ e.config.command_queue_size := by omega
      simp [obs_websocket_switch_scene, hcond e n hm, hcap, hne]
  · intro e n p rid t hm hcap
    refine ⟨?_, ?_, ?_, ?_⟩
    · simp [obs_websocket_switch_scene, hcond e n hm, hcap]
    · intro q
      cases q <;>
        simp [obs_websocket_switch_scene, hcond e n hm, hcap, obs_set_error_flag, getQueue]
    · simp [obs_websocket_switch_scene, hcond e n hm, hcap, obs_set_error_flag]
    · simp [obs_websocket_switch_scene, hcond e n hm, hcap, obs_set_error_flag, flag_or_and]
  · intro e n p rid t s
    simp only [obs_websocket_switch_scene]
    split_ifs <;> rfl
  · intro o p rid t
    cases o <;> rfl
  · intro n p rid t
    rfl
  · intro e names n p rid t h1 h2 h3
    obtain ⟨hr, hcount, hcfg⟩ := enqueueAllResults_spec names e h1 (by omega)
    refine ⟨hr, ?_⟩
    have hfullcond : ((enqueueAllResults e names).2.config.enable_scene_cache &&
        ((enqueueAllResults e names).2.current_scene == n)) = false := by
      rw [hcfg, h1]
      simp
    have hful : (enqueueAllResults e names).2.config.command_queue_size ≤
        (enqueueAllResults e names).2.command_queue_count := by
      rw [hcfg, hcount, h2, h3]
      omega
    simp [obs_websocket_switch_scene, hfullcond, hful]

/-- An engine whose command queue is at capacity, for instantiating
C5. -/
def fullEngine : obs_websocket_t :=
  { initialEngine obs_websocket_default_config with command_queue_count := 64 }

/-- A small-capacity engine with caching disabled, for instantiating
C5. -/
def smallEngine : obs_websocket_t :=
  initialEngine
    { obs_websocket_default_config with enable_scene_cache := false, command_queue_size := 2 }

/-- Witness for C5 at concrete engines. -/
theorem C5_queue_full_exact_witness :
    ((obs_websocket_switch_scene fullEngine "A" .normal "r" 0).1 = 0 ∨
      (obs_websocket_switch_scene fullEngine "A" .normal "r" 0).1 = -3) ∧
    ((obs_websocket_switch_scene fullEngine "A" .normal "r" 0).1 = -3 ↔
      fullEngine.command_queue_count = fullEngine.config.command_queue_size) ∧
    (obs_websocket_switch_scene fullEngine "A" .normal "r" 0).1 = -3 ∧
    (obs_websocket_switch_scene fullEngine "A" .normal "r" 0).2.command_queue_count =
      fullEngine.command_queue_count ∧
    (obs_websocket_switch_scene { fullEngine with state := .connected } "A" .normal "r" 0).1 =
      (obs_websocket_switch_scene fullEngine "A" .normal "r" 0).1 ∧
    obs_websocket_switch_scene_checked (some fullEngine) none .normal "r" 0 =
      (-1, some fullEngine) ∧
    obs_websocket_switch_scene_checked none (some "A") .normal "r" 0 = (-1, none) ∧
    (enqueueAllResults smallEngine ["A", "B"]).1 = List.replicate 2 0 ∧
    (obs_websocket_switch_scene (enqueueAllResults smallEngine ["A", "B"]).2
        "D" .normal "r" 0).1 = -3 := by
  have hm : fullEngine.config.enable_scene_cache = false ∨ fullEngine.current_scene ≠ "A" :=
    Or.inr (by decide)
  have h3 := C5_queue_full_exact.2.2.1 fullEngine "A" .normal "r" 0 hm (by decide)
  have h7 := C5_queue_full_exact.2.2.2.2.2.2 smallEngine ["A", "B"] "D" .normal "r" 0
    rfl rfl rfl
  exact ⟨C5_queue_full_exact.1 fullEngine "A" .normal "r" 0 hm,
    C5_queue_full_exact.2.1 fullEngine "A" .normal "r" 0 hm (by decide),
    h3.1, h3.2.2.1,
    C5_queue_full_exact.2.2.2.1 fullEngine "A" .normal "r" 0 .connected,
    C5_queue_full_exact.2.2.2.2.1 (some fullEngine) .normal "r" 0,
    C5_queue_full_exact.2.2.2.2.2.1 "A" .normal "r" 0,
    h7.1, h7.2⟩

/-- An oracle whose socket creation fails, for the C8 counterexample. -/
def failNet : NetOracle :=
  { socket_ok := false, new_fd := 3, resolve_ok := true, connect_ok := true,
    hs_send_ok := true, hs_response := some "HTTP/1.1 101 Switching Protocols" }

/-- An oracle for which the whole attempt succeeds. -/
def okNet : NetOracle :=
  { socket_ok := true, new_fd := 3, resolve_ok := true, connect_ok := true,
    hs_send_ok := true, hs_response := some "HTTP/1.1 101 Switching Protocols" }

/-- C8 counterexample: a failed connect attempt leaves the
Disconnected/Reconnecting branch in the `error` state AND the
`retry_delay_ms` sleep executes, contradicting the claim that the
sleep happens only when the branch is left in `disconnected` and not
when it is left in `error`. -/
theorem C8_sleep_on_error_counterexample :
    (stepDisconnectedReconnecting failNet
        (initialEngine obs_websocket_default_config)).1.state = .error ∧
    (stepDisconnectedReconnecting failNet
        (initialEngine obs_websocket_default_config)).2 = true := by
  constructor <;> rfl

/-- C8 amended: the sleep guard is `state == error || state ==
disconnected`; every failed connect or handshake attempt leaves the
branch in the `error` state and the sleep DOES execute, while a
successful attempt leaves it in `authenticating` or `connected` and
no sleep happens. -/
theorem C8_retry_sleep_amended (net : NetOracle) (e : obs_websocket_t) :
    (attemptSucceeds net = false →
      (stepDisconnectedReconnecting net e).1.state = .error ∧
      (stepDisconnectedReconnecting net e).2 = true) ∧
    (attemptSucceeds net = true →
      ((stepDisconnectedReconnecting net e).1.state = .authenticating ∨
       (stepDisconnectedReconnecting net e).1.state = .connected) ∧
      (stepDisconnectedReconnecting net e).2 = false) := by
  constructor
  · intro hfail
    unfold attemptSucceeds at hfail
    cases hso : net.socket_ok with
    | false =>
      simp [stepDisconnectedReconnecting, obs_connect_socket, hso, obs_set_state,
        obs_set_error_flag]
    | true =>
      cases hre : net.resolve_ok with
      | false =>
        simp [stepDisconnectedReconnecting, obs_connect_socket, hso, hre, obs_set_state,
          obs_set_error_flag]
      | true =>
        cases hco : net.connect_ok with
        | false =>
          simp [stepDisconnectedReconnecting, obs_connect_socket, hso, hre, hco,
            obs_set_state, obs_set_error_flag]
        | true =>
          cases hse : net.hs_send_ok with
          | false =>
            simp [stepDisconnectedReconnecting, obs_connect_socket, obs_websocket_handshake,
              hso, hre, hco, hse, obs_set_state, obs_set_error_flag, obs_clear_error_flag]
          | true =>
            rw [hso, hre, hco, hse] at hfail
            simp only [Bool.true_and] at hfail
            cases hresp : net.hs_response with
            | none =>
              simp [stepDisconnectedReconnecting, obs_connect_socket,
                obs_websocket_handshake, hso, hre, hco, hse, hresp, obs_set_state,
                obs_set_error_flag, obs_clear_error_flag]
            | some resp =>
              rw [hresp] at hfail
              simp only [] at hfail
              simp at hfail
              simp [stepDisconnectedReconnecting, obs_connect_socket,
                obs_websocket_handshake, hso, hre, hco, hse, hresp, hfail, obs_set_state,
                obs_set_error_flag, obs_clear_error_flag]
  · intro hsucc
    unfold attemptSucceeds at hsucc
    simp only [Bool.and_eq_true] at hsucc
    obtain ⟨⟨⟨⟨hso, hre⟩, hco⟩, hse⟩, hresp0⟩ := hsucc
    cases hresp : net.hs_response with
    | none => rw [hresp] at hresp0; simp at hresp0
    | some resp =>
      rw [hresp] at hresp0
      simp at hresp0
      cases hau : e.auth_required with
      | false =>
        simp [stepDisconnectedReconnecting, obs_connect_socket, obs_websocket_handshake,
          hso, hre, hco, hse, hresp, hresp0, hau, obs_set_state, obs_set_error_flag,
          obs_clear_error_flag]
      | true =>
        simp [stepDisconnectedReconnecting, obs_connect_socket, obs_websocket_handshake,
          hso, hre, hco, hse, hresp, hresp0, hau, obs_set_state, obs_set_error_flag,
          obs_clear_error_flag]

/-- Witness for the amended C8 at concrete oracles and engine. -/
theorem C8_retry_sleep_amended_witness :
    attemptSucceeds failNet = false ∧
    ((stepDisconnectedReconnecting failNet
        (initialEngine obs_websocket_default_config)).1.state = .error ∧
     (stepDisconnectedReconnecting failNet
        (initialEngine obs_websocket_default_config)).2 = true) ∧
    attemptSucceeds okNet = true ∧
    (((stepDisconnectedReconnecting okNet
        (initialEngine obs_websocket_default_config)).1.state = .authenticating ∨
      (stepDisconnectedReconnecting okNet
        (initialEngine obs_websocket_default_config)).1.state = .connected) ∧
     (stepDisconnectedReconnecting okNet
        (initialEngine obs_websocket_default_config)).2 = false) :=
  ⟨by decide,
   (C8_retry_sleep_amended failNet (initialEngine obs_websocket_default_config)).1 (by decide),
   by decide,
   (C8_retry_sleep_amended okNet (initialEngine obs_websocket_default_config)).2 (by decide)⟩

end ObsWS
